import Mathlib

/-!
Shallow embedding of the golf trajectory engine:
the solver in `src/unnamed/part_005` (`calculateTrajectory`,
`calculateAnalyticalTrajectory`, `calculateNumericalTrajectory`) and the
playback tick of `src/src/components/golf/GolfSimulator.tsx`
(`simulationLoop`).  JavaScript numbers are modelled as real numbers; the
unbounded `while (true)` integration loop is modelled with explicit fuel
(`none` means the loop has not exited within the given number of
iterations).
-/

namespace GolfSim

open Real List Classical

/-- `Point` from `src/src/lib/types.ts`; the solver always fills in `t`. -/
structure Point where
  x : ℝ
  y : ℝ
  t : ℝ

/-- Obstacle kinds from `src/src/lib/types.ts` (`'tree' | 'sand'`). -/
inductive ObstacleType
  | tree
  | sand
deriving DecidableEq

/-- `Obstacle` from `src/src/lib/types.ts`.  The optional `height` field is
only read for trees (the source uses `obs.height!`); for sand obstacles it
is irrelevant and modelled as an arbitrary real. -/
structure Obstacle where
  type : ObstacleType
  x : ℝ
  width : ℝ
  height : ℝ

/-- `PhysicsState` from `src/src/lib/types.ts`. -/
structure PhysicsState where
  angle : ℝ
  initialVelocity : ℝ
  gravity : ℝ
  mass : ℝ
  airResistance : Bool
  dragCoefficient : ℝ
  startHeight : ℝ

/-- The `collision` tag of `SimulationStats` (`'tree' | 'sand'`). -/
inductive CollisionKind
  | tree
  | sand
deriving DecidableEq

/-- `SimulationStats` from `src/src/lib/types.ts`.  `maxHeightPoint` is
never null in the solver, so it is modelled as a plain `Point`. -/
structure SimulationStats where
  flightTime : ℝ
  horizontalDistance : ℝ
  maxHeight : ℝ
  maxHeightPoint : Point
  timeToMaxHeight : ℝ
  horizontalDistanceToMaxHeight : ℝ
  launchSpeed : ℝ
  impactSpeed : ℝ
  collision : Option CollisionKind := none

/-- `SimulationResult` from `src/unnamed/part_005`. -/
structure SimulationResult where
  trajectory : List Point
  finalStats : SimulationStats

/-- `AIR_DENSITY` constant. -/
noncomputable def AIR_DENSITY : ℝ := 1.225

/-- `GOLF_BALL_DIAMETER` constant. -/
noncomputable def GOLF_BALL_DIAMETER : ℝ := 0.0427

/-- The hard-coded plotting step of the analytical sampler (`const dt = 0.016`). -/
noncomputable def plotStep : ℝ := 0.016

/-- `angleRad = (params.angle * Math.PI) / 180`. -/
noncomputable def angleRadOf (params : PhysicsState) : ℝ :=
  params.angle * Real.pi / 180

/-- `v0x = v0 * Math.cos(angleRad)`. -/
noncomputable def v0xOf (params : PhysicsState) : ℝ :=
  params.initialVelocity * Real.cos (angleRadOf params)

/-- `v0y = v0 * Math.sin(angleRad)`. -/
noncomputable def v0yOf (params : PhysicsState) : ℝ :=
  params.initialVelocity * Real.sin (angleRadOf params)

/-- `calculateAnalyticalTrajectory` from `src/unnamed/part_005`.  The JS
loop `for (let t = 0; t <= flightTime; t += dt)` emits the points
`i * dt` for `0 ≤ i * dt ≤ flightTime`; in exact real arithmetic that is
`⌊flightTime / dt⌋ + 1` points when `flightTime ≥ 0` and none otherwise. -/
noncomputable def calculateAnalyticalTrajectory (params : PhysicsState) : SimulationResult :=
  let v0 := params.initialVelocity
  let g := params.gravity
  let y0 := params.startHeight
  let v0x := v0xOf params
  let v0y := v0yOf params
  if v0y ≤ 0 ∧ y0 = 0 then
    { trajectory := [⟨0, 0, 0⟩],
      finalStats :=
        { flightTime := 0, horizontalDistance := 0, maxHeight := 0,
          maxHeightPoint := ⟨0, 0, 0⟩, timeToMaxHeight := 0,
          horizontalDistanceToMaxHeight := 0, launchSpeed := v0,
          impactSpeed := v0 } }
  else
    let flightTime := (v0y + Real.sqrt (v0y ^ 2 + 2 * g * y0)) / g
    let horizontalDistance := v0x * flightTime
    let timeToMaxHeight := v0y / g
    let maxHeight := y0 + v0y ^ 2 / (2 * g)
    let horizontalDistanceToMaxHeight := v0x * timeToMaxHeight
    let maxHeightPoint : Point :=
      ⟨horizontalDistanceToMaxHeight, maxHeight, timeToMaxHeight⟩
    let impactVy := v0y - g * flightTime
    let impactSpeed := Real.sqrt (v0x ^ 2 + impactVy ^ 2)
    let count : ℕ := if 0 ≤ flightTime then Nat.floor (flightTime / plotStep) + 1 else 0
    let pts : List Point := (List.range count).map fun i : ℕ =>
      ⟨v0x * ((i : ℝ) * plotStep),
       y0 + v0y * ((i : ℝ) * plotStep) - 0.5 * g * ((i : ℝ) * plotStep) ^ 2,
       (i : ℝ) * plotStep⟩
    { trajectory := pts ++ [⟨horizontalDistance, 0, flightTime⟩],
      finalStats :=
        { flightTime := flightTime, horizontalDistance := horizontalDistance,
          maxHeight := maxHeight, maxHeightPoint := maxHeightPoint,
          timeToMaxHeight := timeToMaxHeight,
          horizontalDistanceToMaxHeight := horizontalDistanceToMaxHeight,
          launchSpeed := v0, impactSpeed := impactSpeed } }

/-- The mutable state of the numerical integration loop. -/
structure NumState where
  x : ℝ
  y : ℝ
  vx : ℝ
  vy : ℝ
  t : ℝ
  trajectory : List Point
  maxHeight : ℝ
  maxHeightPoint : Point

/-- `dragConstant = 0.5 * AIR_DENSITY * area * params.dragCoefficient`. -/
noncomputable def dragConstantOf (params : PhysicsState) : ℝ :=
  let area := Real.pi * (GOLF_BALL_DIAMETER / 2) ^ 2
  0.5 * AIR_DENSITY * area * params.dragCoefficient

/-- Per-step acceleration: `ax = 0, ay = -gravity`, plus the drag terms
when `params.airResistance` is set. -/
noncomputable def accel (params : PhysicsState) (st : NumState) : ℝ × ℝ :=
  if params.airResistance then
    let v := Real.sqrt (st.vx ^ 2 + st.vy ^ 2)
    let k := dragConstantOf params
    (0 + (-k * st.vx * v) / params.mass,
     -params.gravity + (-k * st.vy * v) / params.mass)
  else (0, -params.gravity)

/-- The tree-trunk collision test of `calculateNumericalTrajectory`. -/
def treeHit (x y : ℝ) (o : Obstacle) : Prop :=
  o.type = ObstacleType.tree ∧ o.x - o.width / 2 ≤ x ∧ x ≤ o.x + o.width / 2 ∧
    y ≤ o.height

/-- The sand-trap landing test of `calculateNumericalTrajectory`. -/
def sandHit (x : ℝ) (o : Obstacle) : Prop :=
  o.type = ObstacleType.sand ∧ o.x ≤ x ∧ x ≤ o.x + o.width

/-- The first obstacle of the list satisfying `P` (the JS `for..of` loop
returning on the first match). -/
noncomputable def findHit (P : Obstacle → Prop) : List Obstacle → Option Obstacle
  | [] => none
  | o :: rest => if P o then some o else findHit P rest

/-- The integration part of one `while (true)` iteration of
`calculateNumericalTrajectory`: Euler-update the velocity, position and
time, and track the running maximum height; the trajectory list is
untouched here (the push or exit happens in `numStep`). -/
noncomputable def advance (params : PhysicsState) (dt : ℝ) (st : NumState) : NumState :=
  let a := accel params st
  let vx := st.vx + a.1 * dt
  let vy := st.vy + a.2 * dt
  let x := st.x + vx * dt
  let y := st.y + vy * dt
  let t := st.t + dt
  { x := x, y := y, vx := vx, vy := vy, t := t,
    trajectory := st.trajectory,
    maxHeight := if st.maxHeight < y then y else st.maxHeight,
    maxHeightPoint := if st.maxHeight < y then ⟨x, y, t⟩ else st.maxHeightPoint }

/-- The interpolation factor of the ground-crossing branch,
`intersectionFactor = prevY / (prevY - y)`. -/
noncomputable def groundFactor (st st' : NumState) : ℝ :=
  st.y / (st.y - st'.y)

/-- One iteration of the `while (true)` loop of
`calculateNumericalTrajectory`: integrate one Euler step, update the
running maximum, then test tree collision, then ground crossing.
`Sum.inr` is an exit (function return), `Sum.inl` continues the loop. -/
noncomputable def numStep (params : PhysicsState) (dt : ℝ) (obstacles : List Obstacle)
    (st : NumState) : NumState ⊕ SimulationResult :=
  let st' := advance params dt st
  match findHit (treeHit st'.x st'.y) obstacles with
  | some _ =>
      Sum.inr
        { trajectory := st.trajectory ++ [⟨st'.x, st'.y, st'.t⟩],
          finalStats :=
            { flightTime := st'.t, horizontalDistance := st'.x,
              maxHeight := st'.maxHeight,
              maxHeightPoint := st'.maxHeightPoint,
              timeToMaxHeight := st'.maxHeightPoint.t,
              horizontalDistanceToMaxHeight := st'.maxHeightPoint.x,
              launchSpeed := params.initialVelocity,
              impactSpeed := Real.sqrt (st'.vx ^ 2 + st'.vy ^ 2),
              collision := some CollisionKind.tree } }
  | none =>
      if st'.y < 0 then
        let f := groundFactor st st'
        let finalX := st.x + (st'.x - st.x) * f
        let finalTime := st.t + dt * f
        match findHit (sandHit finalX) obstacles with
        | some _ =>
            Sum.inr
              { trajectory := st.trajectory ++ [⟨finalX, 0, finalTime⟩],
                finalStats :=
                  { flightTime := finalTime, horizontalDistance := finalX,
                    maxHeight := st'.maxHeight,
                    maxHeightPoint := st'.maxHeightPoint,
                    timeToMaxHeight := st'.maxHeightPoint.t,
                    horizontalDistanceToMaxHeight := st'.maxHeightPoint.x,
                    launchSpeed := params.initialVelocity, impactSpeed := 0,
                    collision := some CollisionKind.sand } }
        | none =>
            let impactVx := st'.vx - (accel params st).1 * (dt * (1 - f))
            let impactVy := st'.vy - (accel params st).2 * (dt * (1 - f))
            Sum.inr
              { trajectory := st.trajectory ++ [⟨finalX, 0, finalTime⟩],
                finalStats :=
                  { flightTime := finalTime, horizontalDistance := finalX,
                    maxHeight := st'.maxHeight,
                    maxHeightPoint := st'.maxHeightPoint,
                    timeToMaxHeight := st'.maxHeightPoint.t,
                    horizontalDistanceToMaxHeight := st'.maxHeightPoint.x,
                    launchSpeed := params.initialVelocity,
                    impactSpeed := Real.sqrt (impactVx ^ 2 + impactVy ^ 2),
                    collision := none } }
      else
        Sum.inl
          { x := st'.x, y := st'.y, vx := st'.vx, vy := st'.vy, t := st'.t,
            trajectory := st.trajectory ++ [⟨st'.x, st'.y, st'.t⟩],
            maxHeight := st'.maxHeight, maxHeightPoint := st'.maxHeightPoint }

/-- The `while (true)` loop, with fuel: `none` means the loop has not
exited within `fuel` iterations (the source has no iteration cap at all). -/
noncomputable def numLoop (params : PhysicsState) (dt : ℝ) (obstacles : List Obstacle) :
    ℕ → NumState → Option SimulationResult
  | 0, _ => none
  | Nat.succ fuel, st =>
      match numStep params dt obstacles st with
      | Sum.inr res => some res
      | Sum.inl st' => numLoop params dt obstacles fuel st'

/-- The initial loop state of `calculateNumericalTrajectory`. -/
noncomputable def initState (params : PhysicsState) : NumState :=
  { x := 0, y := params.startHeight,
    vx := v0xOf params, vy := v0yOf params, t := 0,
    trajectory := [⟨0, params.startHeight, 0⟩],
    maxHeight := params.startHeight,
    maxHeightPoint := ⟨0, params.startHeight, 0⟩ }

/-- `calculateNumericalTrajectory` from `src/unnamed/part_005`. -/
noncomputable def calculateNumericalTrajectory (params : PhysicsState) (dt : ℝ)
    (obstacles : List Obstacle) (fuel : ℕ) : Option SimulationResult :=
  let st := initState params
  if st.vy ≤ 0 ∧ st.y = 0 then
    some
      { trajectory := [⟨0, 0, 0⟩],
        finalStats :=
          { flightTime := 0, horizontalDistance := 0, maxHeight := 0,
            maxHeightPoint := ⟨0, 0, 0⟩, timeToMaxHeight := 0,
            horizontalDistanceToMaxHeight := 0,
            launchSpeed := params.initialVelocity,
            impactSpeed := params.initialVelocity } }
  else numLoop params dt obstacles fuel st

/-- `calculateTrajectory` from `src/unnamed/part_005`: the zero-velocity
degenerate result, else the analytical method when air resistance is off
and no obstacles are supplied, else numerical integration. -/
noncomputable def calculateTrajectory (params : PhysicsState) (timeStep : ℝ)
    (obstacles : List Obstacle) (fuel : ℕ) : Option SimulationResult :=
  if params.initialVelocity = 0 then
    some
      { trajectory := [⟨0, params.startHeight, 0⟩],
        finalStats :=
          { flightTime := 0, horizontalDistance := 0,
            maxHeight := params.startHeight,
            maxHeightPoint := ⟨0, params.startHeight, 0⟩,
            timeToMaxHeight := 0, horizontalDistanceToMaxHeight := 0,
            launchSpeed := 0, impactSpeed := 0 } }
  else if params.airResistance = false ∧ obstacles.length = 0 then
    some (calculateAnalyticalTrajectory params)
  else
    calculateNumericalTrajectory params timeStep obstacles fuel

/-- Linear interpolation between two samples at simulated time `sim`
(`simulationLoop` of `GolfSimulator.tsx`); the interpolated current point
carries no `t`, so it is an `(x, y)` pair. -/
noncomputable def interpPoint (p1 p2 : Point) (sim : ℝ) : ℝ × ℝ :=
  let f := (sim - p1.t) / (p2.t - p1.t)
  (p1.x + (p2.x - p1.x) * f, p1.y + (p2.y - p1.y) * f)

/-- The bracketing-pair search of `simulationLoop`: scan adjacent sample
pairs and interpolate in the first pair `(p1, p2)` with
`p1.t ≤ sim < p2.t`; `none` when no pair brackets `sim`. -/
noncomputable def findInterp (sim : ℝ) : List Point → Option (ℝ × ℝ)
  | p1 :: p2 :: rest =>
      if p1.t ≤ sim ∧ sim < p2.t then some (interpPoint p1 p2 sim)
      else findInterp sim (p2 :: rest)
  | _ => none

/-- The observable outcome of one `simulationLoop` tick in the flying
state: the updated elapsed simulated time, the ball position written (if
any), and whether the run transitions to `finished`. -/
structure TickResult where
  elapsedSimTime : ℝ
  position : Option (ℝ × ℝ)
  finished : Bool

/-- One tick of `simulationLoop` (GolfSimulator.tsx) while flying: scale
the wall-clock delta by the slow-motion factor, add it to the elapsed
simulated time, then either finish on the trajectory's final sample or
interpolate between the bracketing samples. -/
noncomputable def simulationTick (trajPoints : List Point) (totalFlightTime : ℝ)
    (simTime : ℝ) (timeDelta : ℝ) (slowMotion : Bool) : TickResult :=
  let timeFactor : ℝ := if slowMotion then 0.25 else 1
  let newSim := simTime + timeDelta * timeFactor
  if totalFlightTime ≤ newSim then
    { elapsedSimTime := newSim,
      position := (trajPoints.getLast?).map fun p => (p.x, p.y),
      finished := true }
  else
    { elapsedSimTime := newSim,
      position := findInterp newSim trajPoints,
      finished := false }

end GolfSim

namespace GolfSim

/-! ### Basic facts about the obstacle scan -/

lemma findHit_nil (P : Obstacle → Prop) : findHit P [] = none := rfl

lemma findHit_eq_none_of_forall {P : Obstacle → Prop} :
    ∀ {l : List Obstacle}, (∀ o ∈ l, ¬ P o) → findHit P l = none
  | [], _ => rfl
  | o :: rest, h => by
      rw [findHit, if_neg (h o (List.mem_cons_self o rest))]
      exact findHit_eq_none_of_forall fun o' ho' => h o' (List.mem_cons_of_mem _ ho')

lemma findHit_some {P : Obstacle → Prop} :
    ∀ {l : List Obstacle} {o : Obstacle}, findHit P l = some o → o ∈ l ∧ P o := by
  intro l
  induction l with
  | nil => intro o h; simp [findHit] at h
  | cons a rest ih =>
      intro o h
      rw [findHit] at h
      by_cases hp : P a
      · rw [if_pos hp] at h
        cases h
        exact ⟨List.mem_cons_self a rest, hp⟩
      · rw [if_neg hp] at h
        rcases ih h with ⟨hm, hP⟩
        exact ⟨List.mem_cons_of_mem _ hm, hP⟩

lemma findHit_isSome_of_exists {P : Obstacle → Prop} :
    ∀ {l : List Obstacle}, (∃ o ∈ l, P o) → ∃ o, findHit P l = some o ∧ P o ∧ o ∈ l := by
  intro l
  induction l with
  | nil => rintro ⟨o, ho, _⟩; exact absurd ho (List.not_mem_nil o)
  | cons a rest ih =>
      rintro ⟨o, ho, hP⟩
      by_cases hp : P a
      · exact ⟨a, by rw [findHit, if_pos hp], hp, List.mem_cons_self a rest⟩
      · have ho' : o ∈ rest := by
          rcases List.mem_cons.1 ho with h | h
          · exact absurd (h ▸ hP) hp
          · exact h
        rcases ih ⟨o, ho', hP⟩ with ⟨o', h1, h2, h3⟩
        exact ⟨o', by rw [findHit, if_neg hp]; exact h1, h2, List.mem_cons_of_mem _ h3⟩

/-! ### Claim theorems -/

/-- Claim C1: for a positive initial velocity, `calculateTrajectory` uses
the closed-form analytical method exactly when air resistance is disabled
and the obstacle list is empty, and the fixed-step numerical method in
every other case. -/
theorem claim_C1_method_selection (params : PhysicsState) (timeStep : ℝ)
    (obstacles : List Obstacle) (fuel : ℕ) (hv : 0 < params.initialVelocity) :
    ((params.airResistance = false ∧ obstacles = []) →
        calculateTrajectory params timeStep obstacles fuel =
          some (calculateAnalyticalTrajectory params)) ∧
    ((params.airResistance = true ∨ obstacles ≠ []) →
        calculateTrajectory params timeStep obstacles fuel =
          calculateNumericalTrajectory params timeStep obstacles fuel) := by
  rw [calculateTrajectory, if_neg (ne_of_gt hv)]
  constructor
  · rintro ⟨ha, hobs⟩
    rw [if_pos ⟨ha, by simp [hobs]⟩]
  · intro h
    rw [if_neg]
    rintro ⟨ha, hlen⟩
    rcases h with h | h
    · rw [h] at ha; cases ha
    · exact h (List.length_eq_zero.1 hlen)

/-- Witness for C1 at a concrete no-drag, no-obstacle input. -/
theorem claim_C1_method_selection_witness :
    ((0:ℝ) < (10:ℝ)) ∧
    ((((⟨45, 10, 9.8, 1, false, 0, 0⟩ : PhysicsState)).airResistance = false ∧
        ([] : List Obstacle) = []) →
      calculateTrajectory ⟨45, 10, 9.8, 1, false, 0, 0⟩ 0.016 [] 1 =
        some (calculateAnalyticalTrajectory ⟨45, 10, 9.8, 1, false, 0, 0⟩)) ∧
    ((((⟨45, 10, 9.8, 1, false, 0, 0⟩ : PhysicsState)).airResistance = true ∨
        ([] : List Obstacle) ≠ []) →
      calculateTrajectory ⟨45, 10, 9.8, 1, false, 0, 0⟩ 0.016 [] 1 =
        calculateNumericalTrajectory ⟨45, 10, 9.8, 1, false, 0, 0⟩ 0.016 [] 1) := by
  refine ⟨by norm_num, ?_⟩
  exact claim_C1_method_selection ⟨45, 10, 9.8, 1, false, 0, 0⟩ 0.016 [] 1
    (by show (0:ℝ) < 10; norm_num)

/-- Claim C3: a zero initial velocity yields the degenerate single-sample
result `(0, startHeight, 0)` with zero flight time, distance, launch speed
and impact speed. -/
theorem claim_C3_zero_velocity (params : PhysicsState) (timeStep : ℝ)
    (obstacles : List Obstacle) (fuel : ℕ) (h : params.initialVelocity = 0) :
    calculateTrajectory params timeStep obstacles fuel =
      some ⟨[⟨0, params.startHeight, 0⟩],
        ⟨0, 0, params.startHeight, ⟨0, params.startHeight, 0⟩, 0, 0, 0, 0, none⟩⟩ := by
  rw [calculateTrajectory, if_pos h]

/-- Witness for C3 at a concrete zero-velocity input. -/
theorem claim_C3_zero_velocity_witness :
    (((⟨30, 0, 9.8, 1, true, 0.4, 2⟩ : PhysicsState)).initialVelocity = 0) ∧
    calculateTrajectory ⟨30, 0, 9.8, 1, true, 0.4, 2⟩ 0.016 [] 3 =
      some ⟨[⟨0, (⟨30, 0, 9.8, 1, true, 0.4, 2⟩ : PhysicsState).startHeight, 0⟩],
        ⟨0, 0, (⟨30, 0, 9.8, 1, true, 0.4, 2⟩ : PhysicsState).startHeight,
          ⟨0, (⟨30, 0, 9.8, 1, true, 0.4, 2⟩ : PhysicsState).startHeight, 0⟩,
          0, 0, 0, 0, none⟩⟩ := by
  refine ⟨rfl, ?_⟩
  exact claim_C3_zero_velocity ⟨30, 0, 9.8, 1, true, 0.4, 2⟩ 0.016 [] 3 rfl

end GolfSim

namespace GolfSim

/-- Claim C7 (counterexample): at a 0° ground-level launch with
`initialVelocity = 1` the degenerate result has `launchSpeed = 1`, not the
zero launch speed the claim asserts. -/
theorem claim_C7_counterexample :
    (calculateTrajectory ⟨0, 1, 1, 1, false, 0, 0⟩ 0.016 [] 1).map
        (fun r => (r.finalStats.launchSpeed, r.finalStats.impactSpeed)) =
      some ((1:ℝ), (1:ℝ)) ∧ (1:ℝ) ≠ 0 := by
  refine ⟨?_, by norm_num⟩
  have hvy : v0yOf ⟨0, 1, 1, 1, false, 0, 0⟩ ≤ 0 := by
    simp [v0yOf, angleRadOf]
  rw [calculateTrajectory, if_neg (by show (1:ℝ) ≠ 0; norm_num),
    if_pos ⟨rfl, rfl⟩]
  simp only [calculateAnalyticalTrajectory]
  rw [if_pos ⟨hvy, by trivial⟩]
  rfl

/-- Claim C7 (amended): a launch with positive speed, non-positive vertical
launch velocity and zero start height returns the single-point trajectory
`[(0,0,0)]` with all stats zero except `launchSpeed` and `impactSpeed`,
which both equal the initial velocity. -/
theorem claim_C7_amended (params : PhysicsState) (timeStep : ℝ)
    (obstacles : List Obstacle) (fuel : ℕ) (hv : 0 < params.initialVelocity)
    (hvy : v0yOf params ≤ 0) (hy0 : params.startHeight = 0) :
    calculateTrajectory params timeStep obstacles fuel =
      some ⟨[⟨0, 0, 0⟩],
        ⟨0, 0, 0, ⟨0, 0, 0⟩, 0, 0,
          params.initialVelocity, params.initialVelocity, none⟩⟩ := by
  rw [calculateTrajectory, if_neg (ne_of_gt hv)]
  by_cases hsel : params.airResistance = false ∧ obstacles.length = 0
  · rw [if_pos hsel]
    simp only [calculateAnalyticalTrajectory]
    rw [if_pos ⟨hvy, hy0⟩]
  · rw [if_neg hsel]
    simp only [calculateNumericalTrajectory, initState]
    rw [if_pos ⟨hvy, hy0⟩]

/-- Witness for the amended C7 at a concrete 0°, ground-level launch. -/
theorem claim_C7_amended_witness :
    ((0:ℝ) < (5:ℝ)) ∧ v0yOf ⟨0, 5, 9.8, 1, true, 0.4, 0⟩ ≤ 0 ∧
    calculateTrajectory ⟨0, 5, 9.8, 1, true, 0.4, 0⟩ 0.016 [] 4 =
      some ⟨[⟨0, 0, 0⟩], ⟨0, 0, 0, ⟨0, 0, 0⟩, 0, 0, (5:ℝ), (5:ℝ), none⟩⟩ := by
  have hvy : v0yOf ⟨0, 5, 9.8, 1, true, 0.4, 0⟩ ≤ 0 := by
    simp [v0yOf, angleRadOf]
  exact ⟨by norm_num, hvy,
    claim_C7_amended ⟨0, 5, 9.8, 1, true, 0.4, 0⟩ 0.016 [] 4
      (by show (0:ℝ) < 5; norm_num) hvy rfl⟩

/-- Claim C4: on the analytical path (no drag, no obstacles, positive
speed, non-degenerate), the final stats satisfy
`flightTime = (v0y + sqrt(v0y² + 2 g y0)) / g` and
`horizontalDistance = v0x * flightTime`. -/
theorem claim_C4_analytical_stats (params : PhysicsState) (timeStep : ℝ) (fuel : ℕ)
    (hv : 0 < params.initialVelocity) (ha : params.airResistance = false)
    (hnd : ¬ (v0yOf params ≤ 0 ∧ params.startHeight = 0)) :
    (calculateTrajectory params timeStep [] fuel).map
        (fun r => (r.finalStats.flightTime, r.finalStats.horizontalDistance)) =
      some
        ((v0yOf params +
            Real.sqrt ((v0yOf params) ^ 2 + 2 * params.gravity * params.startHeight)) /
              params.gravity,
          v0xOf params *
            ((v0yOf params +
              Real.sqrt ((v0yOf params) ^ 2 + 2 * params.gravity * params.startHeight)) /
                params.gravity)) := by
  rw [calculateTrajectory, if_neg (ne_of_gt hv), if_pos ⟨ha, rfl⟩]
  simp only [calculateAnalyticalTrajectory]
  rw [if_neg hnd]
  rfl

/-- Witness for C4 at a concrete 0°, raised-tee launch. -/
theorem claim_C4_analytical_stats_witness :
    ((0:ℝ) < (1:ℝ)) ∧
    ¬ (v0yOf ⟨0, 1, 1, 1, false, 0, 1⟩ ≤ 0 ∧
        (⟨0, 1, 1, 1, false, 0, 1⟩ : PhysicsState).startHeight = 0) ∧
    (calculateTrajectory ⟨0, 1, 1, 1, false, 0, 1⟩ 0.016 [] 1).map
        (fun r => (r.finalStats.flightTime, r.finalStats.horizontalDistance)) =
      some
        ((v0yOf ⟨0, 1, 1, 1, false, 0, 1⟩ +
            Real.sqrt ((v0yOf ⟨0, 1, 1, 1, false, 0, 1⟩) ^ 2 +
              2 * (⟨0, 1, 1, 1, false, 0, 1⟩ : PhysicsState).gravity *
                (⟨0, 1, 1, 1, false, 0, 1⟩ : PhysicsState).startHeight)) /
              (⟨0, 1, 1, 1, false, 0, 1⟩ : PhysicsState).gravity,
          v0xOf ⟨0, 1, 1, 1, false, 0, 1⟩ *
            ((v0yOf ⟨0, 1, 1, 1, false, 0, 1⟩ +
              Real.sqrt ((v0yOf ⟨0, 1, 1, 1, false, 0, 1⟩) ^ 2 +
                2 * (⟨0, 1, 1, 1, false, 0, 1⟩ : PhysicsState).gravity *
                  (⟨0, 1, 1, 1, false, 0, 1⟩ : PhysicsState).startHeight)) /
                (⟨0, 1, 1, 1, false, 0, 1⟩ : PhysicsState).gravity)) := by
  have hnd : ¬ (v0yOf ⟨0, 1, 1, 1, false, 0, 1⟩ ≤ 0 ∧
      (⟨0, 1, 1, 1, false, 0, 1⟩ : PhysicsState).startHeight = 0) := by
    rintro ⟨-, h⟩
    exact absurd (h : (1:ℝ) = 0) (by norm_num)
  exact ⟨by norm_num, hnd,
    claim_C4_analytical_stats ⟨0, 1, 1, 1, false, 0, 1⟩ 0.016 1
      (by show (0:ℝ) < 1; norm_num) rfl hnd⟩

end GolfSim

namespace GolfSim

/-! ### Shape analysis of one numerical step -/

lemma advance_x (params : PhysicsState) (dt : ℝ) (st : NumState) :
    (advance params dt st).x = st.x + (st.vx + (accel params st).1 * dt) * dt := rfl

lemma advance_y (params : PhysicsState) (dt : ℝ) (st : NumState) :
    (advance params dt st).y = st.y + (st.vy + (accel params st).2 * dt) * dt := rfl

lemma advance_vx (params : PhysicsState) (dt : ℝ) (st : NumState) :
    (advance params dt st).vx = st.vx + (accel params st).1 * dt := rfl

lemma advance_vy (params : PhysicsState) (dt : ℝ) (st : NumState) :
    (advance params dt st).vy = st.vy + (accel params st).2 * dt := rfl

lemma advance_t (params : PhysicsState) (dt : ℝ) (st : NumState) :
    (advance params dt st).t = st.t + dt := rfl

lemma advance_trajectory (params : PhysicsState) (dt : ℝ) (st : NumState) :
    (advance params dt st).trajectory = st.trajectory := rfl

/-- If a numerical step continues the loop, the new state is the advanced
state with the advanced point pushed, no tree was hit, and the new height
is not below ground. -/
lemma numStep_inl {params : PhysicsState} {dt : ℝ} {obstacles : List Obstacle}
    {st st' : NumState} (h : numStep params dt obstacles st = Sum.inl st') :
    st' = { advance params dt st with
              trajectory := st.trajectory ++
                [⟨(advance params dt st).x, (advance params dt st).y,
                  (advance params dt st).t⟩] } ∧
      ¬ (advance params dt st).y < 0 ∧
      findHit (treeHit (advance params dt st).x (advance params dt st).y) obstacles
        = none := by
  simp only [numStep] at h
  rcases hfh : findHit (treeHit (advance params dt st).x (advance params dt st).y)
      obstacles with _ | o
  · rw [hfh] at h
    simp only at h
    by_cases hy : (advance params dt st).y < 0
    · rw [if_pos hy] at h
      rcases hsand : findHit
          (sandHit (st.x + ((advance params dt st).x - st.x) *
            groundFactor st (advance params dt st))) obstacles with _ | o
      · rw [hsand] at h; simp only at h; cases h
      · rw [hsand] at h; simp only at h; cases h
    · rw [if_neg hy] at h
      cases h
      exact ⟨rfl, hy, rfl⟩
  · rw [hfh] at h
    simp only at h
    cases h

/-- If a numerical step exits the loop, the returned trajectory is the
incoming one with exactly one final sample appended: the advanced point on
a tree hit, the interpolated `y = 0` landing point otherwise. -/
lemma numStep_inr_last {params : PhysicsState} {dt : ℝ} {obstacles : List Obstacle}
    {st : NumState} {r : SimulationResult}
    (h : numStep params dt obstacles st = Sum.inr r) :
    ∃ pt : Point, r.trajectory = st.trajectory ++ [pt] ∧
      r.finalStats.flightTime = pt.t ∧ r.finalStats.horizontalDistance = pt.x ∧
      ((r.finalStats.collision = some CollisionKind.tree ∧
          pt = ⟨(advance params dt st).x, (advance params dt st).y,
                (advance params dt st).t⟩ ∧
          ∃ o ∈ obstacles,
            treeHit (advance params dt st).x (advance params dt st).y o) ∨
       (r.finalStats.collision ≠ some CollisionKind.tree ∧
          (advance params dt st).y < 0 ∧
          pt = ⟨st.x + ((advance params dt st).x - st.x) *
                  groundFactor st (advance params dt st),
                0,
                st.t + dt * groundFactor st (advance params dt st)⟩)) := by
  simp only [numStep] at h
  rcases hfh : findHit (treeHit (advance params dt st).x (advance params dt st).y)
      obstacles with _ | o
  · rw [hfh] at h
    simp only at h
    by_cases hy : (advance params dt st).y < 0
    · rw [if_pos hy] at h
      rcases hsand : findHit
          (sandHit (st.x + ((advance params dt st).x - st.x) *
            groundFactor st (advance params dt st))) obstacles with _ | o
      · rw [hsand] at h
        simp only at h
        cases h
        refine ⟨_, rfl, rfl, rfl, Or.inr ⟨?_, hy, rfl⟩⟩
        simp
      · rw [hsand] at h
        simp only at h
        cases h
        refine ⟨_, rfl, rfl, rfl, Or.inr ⟨?_, hy, rfl⟩⟩
        simp
    · rw [if_neg hy] at h
      cases h
  · rw [hfh] at h
    simp only at h
    cases h
    rcases findHit_some hfh with ⟨hmem, hP⟩
    exact ⟨_, rfl, rfl, rfl, Or.inl ⟨rfl, rfl, o, hmem, hP⟩⟩

end GolfSim

namespace GolfSim

/-- Loop invariant for sample times: starting from a non-negative height
and a strictly time-increasing accumulated trajectory whose last sample
time is the loop clock, any result of the loop has non-decreasing sample
times, strictly increasing except possibly at the final appended sample. -/
lemma numLoop_times {params : PhysicsState} {dt : ℝ} {obstacles : List Obstacle}
    (hdt : 0 < dt) :
    ∀ (fuel : ℕ) (st : NumState) (r : SimulationResult),
      0 ≤ st.y →
      st.trajectory ≠ [] →
      List.Chain' (fun p q : Point => p.t < q.t) st.trajectory →
      (∀ pt ∈ st.trajectory.getLast?, pt.t = st.t) →
      numLoop params dt obstacles fuel st = some r →
      r.trajectory ≠ [] ∧
        List.Chain' (fun p q : Point => p.t ≤ q.t) r.trajectory ∧
        List.Chain' (fun p q : Point => p.t < q.t) r.trajectory.dropLast := by
  intro fuel
  induction fuel with
  | zero => intro st r _ _ _ _ h; simp [numLoop] at h
  | succ n ih =>
      intro st r hy htne hchain hlast hrun
      rw [numLoop] at hrun
      cases hstep : numStep params dt obstacles st with
      | inl st' =>
          rw [hstep] at hrun
          obtain ⟨hst', hyge, -⟩ := numStep_inl hstep
          obtain ⟨plast, hpl⟩ : ∃ p, st.trajectory.getLast? = some p :=
            Option.isSome_iff_exists.1 (List.getLast?_isSome.2 htne)
          have hplt : plast.t = st.t := hlast plast (by rw [hpl]; rfl)
          refine ih st' r ?_ ?_ ?_ ?_ hrun
          · rw [hst']
            exact not_lt.1 hyge
          · rw [hst']
            simp
          · rw [hst']
            refine (List.chain'_append).2 ⟨hchain, List.chain'_singleton _, ?_⟩
            intro a ha b hb
            simp only [List.head?_cons, Option.mem_def, Option.some_inj] at hb
            rw [hpl] at ha
            simp only [Option.mem_def, Option.some_inj] at ha
            subst ha; subst hb
            simp only [advance_t, hplt]
            linarith
          · rw [hst']
            intro pt hpt
            simp only [List.getLast?_concat, Option.mem_def, Option.some_inj] at hpt
            subst hpt
            rfl
      | inr res =>
          rw [hstep] at hrun
          cases hrun
          obtain ⟨pt, htr, -, -, hcase⟩ := numStep_inr_last hstep
          obtain ⟨plast, hpl⟩ : ∃ p, st.trajectory.getLast? = some p :=
            Option.isSome_iff_exists.1 (List.getLast?_isSome.2 htne)
          have hplt : plast.t = st.t := hlast plast (by rw [hpl]; rfl)
          have hptt : st.t ≤ pt.t := by
            rcases hcase with ⟨-, hpt, -⟩ | ⟨-, hylt, hpt⟩
            · rw [hpt]
              simp only [advance_t]
              linarith
            · rw [hpt]
              have hden : 0 < st.y - (advance params dt st).y := by linarith
              have hf : 0 ≤ groundFactor st (advance params dt st) :=
                div_nonneg hy (le_of_lt hden)
              have : 0 ≤ dt * groundFactor st (advance params dt st) :=
                mul_nonneg (le_of_lt hdt) hf
              simp only
              linarith
          refine ⟨?_, ?_, ?_⟩
          · rw [htr]; simp
          · rw [htr]
            refine (List.chain'_append).2
              ⟨hchain.imp fun a b hab => le_of_lt hab, List.chain'_singleton _, ?_⟩
            intro a ha b hb
            simp only [List.head?_cons, Option.mem_def, Option.some_inj] at hb
            rw [hpl] at ha
            simp only [Option.mem_def, Option.some_inj] at ha
            subst ha; subst hb
            rw [hplt]
            exact hptt
          · rw [htr, List.dropLast_concat]
            exact hchain

end GolfSim

namespace GolfSim

lemma plotStep_pos : (0:ℝ) < plotStep := by rw [plotStep]; norm_num

lemma initState_y (params : PhysicsState) : (initState params).y = params.startHeight := rfl

lemma initState_vy (params : PhysicsState) : (initState params).vy = v0yOf params := rfl

lemma initState_t (params : PhysicsState) : (initState params).t = 0 := rfl

lemma initState_trajectory (params : PhysicsState) :
    (initState params).trajectory = [⟨0, params.startHeight, 0⟩] := rfl

/-- The analytical flight time is non-negative for positive gravity and a
non-negative start height. -/
lemma analytical_flightTime_nonneg (params : PhysicsState) (hg : 0 < params.gravity)
    (hy0 : 0 ≤ params.startHeight) :
    0 ≤ (v0yOf params +
        Real.sqrt ((v0yOf params) ^ 2 + 2 * params.gravity * params.startHeight)) /
          params.gravity := by
  have habs : |v0yOf params| ≤
      Real.sqrt ((v0yOf params) ^ 2 + 2 * params.gravity * params.startHeight) := by
    rw [← Real.sqrt_sq_eq_abs]
    apply Real.sqrt_le_sqrt
    nlinarith [mul_nonneg hg.le hy0]
  have h1 : -|v0yOf params| ≤ v0yOf params := neg_abs_le _
  exact div_nonneg (by linarith) hg.le

/-- Sample times of the analytical trajectory: non-decreasing overall,
strictly increasing before the appended exact landing sample. -/
lemma analytical_times (params : PhysicsState) (hg : 0 < params.gravity)
    (hy0 : 0 ≤ params.startHeight) :
    (calculateAnalyticalTrajectory params).trajectory ≠ [] ∧
      List.Chain' (fun p q : Point => p.t ≤ q.t)
        (calculateAnalyticalTrajectory params).trajectory ∧
      List.Chain' (fun p q : Point => p.t < q.t)
        (calculateAnalyticalTrajectory params).trajectory.dropLast := by
  by_cases hdeg : v0yOf params ≤ 0 ∧ params.startHeight = 0
  · simp only [calculateAnalyticalTrajectory]
    rw [if_pos hdeg]
    simp
  · simp only [calculateAnalyticalTrajectory]
    rw [if_neg hdeg]
    have hft := analytical_flightTime_nonneg params hg hy0
    rw [if_pos hft]
    have hchain_lt : List.Chain' (fun p q : Point => p.t < q.t)
        ((List.range (Nat.floor
            ((v0yOf params +
              Real.sqrt ((v0yOf params) ^ 2 + 2 * params.gravity * params.startHeight)) /
                params.gravity / plotStep) + 1)).map fun i : ℕ =>
          (⟨v0xOf params * ((i : ℝ) * plotStep),
            params.startHeight + v0yOf params * ((i : ℝ) * plotStep) -
              0.5 * params.gravity * ((i : ℝ) * plotStep) ^ 2,
            (i : ℝ) * plotStep⟩ : Point)) := by
      rw [List.chain'_map, List.chain'_range_succ]
      intro m hm
      show ((m : ℕ) : ℝ) * plotStep < ((m.succ : ℕ) : ℝ) * plotStep
      push_cast
      nlinarith [plotStep_pos]
    refine ⟨by simp, ?_, ?_⟩
    · refine (List.chain'_append).2
        ⟨hchain_lt.imp fun a b hab => le_of_lt hab, List.chain'_singleton _, ?_⟩
      intro a ha b hb
      simp only [List.head?_cons, Option.mem_def, Option.some_inj] at hb
      rw [List.range_succ, List.map_append, List.map_singleton,
        List.getLast?_concat] at ha
      simp only [Option.mem_def, Option.some_inj] at ha
      subst ha; subst hb
      show ((Nat.floor _ : ℕ) : ℝ) * plotStep ≤ _
      rw [← le_div_iff₀ plotStep_pos]
      exact Nat.floor_le (div_nonneg hft plotStep_pos.le)
    · rw [List.dropLast_concat]
      exact hchain_lt

end GolfSim

namespace GolfSim

/-- Claim C5 (counterexample): a 90° launch from the ground at
`v0 = 0.008 m/s` (no drag, no obstacles) has `flightTime = 0.016`, an
exact multiple of the 0.016 s sampling step, so the appended exact landing
sample repeats the previous sample's time: the produced times are
`[0, 0.016, 0.016]`, which do not strictly increase. -/
theorem claim_C5_counterexample :
    (calculateTrajectory ⟨90, 0.008, 1, 1, false, 0, 0⟩ 0.016 [] 1).map
        (fun r => r.trajectory.map Point.t) = some [0, 0.016, 0.016] ∧
      ¬ List.Chain' (fun a b : ℝ => a < b) [0, 0.016, 0.016] := by
  constructor
  · have hrad : angleRadOf ⟨90, 0.008, 1, 1, false, 0, 0⟩ = Real.pi / 2 := by
      show (90:ℝ) * Real.pi / 180 = Real.pi / 2
      ring
    have hsin : v0yOf ⟨90, 0.008, 1, 1, false, 0, 0⟩ = 0.008 := by
      rw [v0yOf, hrad, Real.sin_pi_div_two]
      norm_num
    have hcos : v0xOf ⟨90, 0.008, 1, 1, false, 0, 0⟩ = 0 := by
      rw [v0xOf, hrad, Real.cos_pi_div_two]
      norm_num
    have hsqrt : Real.sqrt ((0.008:ℝ) ^ 2 + 2 * 1 * 0) = 0.008 := by
      rw [show ((0.008:ℝ) ^ 2 + 2 * 1 * 0) = 0.008 ^ 2 by norm_num]
      exact Real.sqrt_sq (by norm_num)
    rw [calculateTrajectory, if_neg (by show (0.008:ℝ) ≠ 0; norm_num),
      if_pos ⟨rfl, rfl⟩]
    simp only [calculateAnalyticalTrajectory]
    rw [if_neg (by rw [hsin]; rintro ⟨h, -⟩; norm_num at h)]
    simp only [hsin, hcos]
    have hft : ((0.008:ℝ) + Real.sqrt (0.008 ^ 2 + 2 * 1 * 0)) / 1 = 0.016 := by
      rw [hsqrt]; norm_num
    rw [hft]
    rw [if_pos (by norm_num : (0:ℝ) ≤ 0.016)]
    have hfloor : Nat.floor ((0.016:ℝ) / plotStep) = 1 := by
      rw [plotStep]
      norm_num
    rw [hfloor]
    simp [plotStep, List.range_succ, Function.comp]
  · intro h
    have := (List.chain'_cons.1 (List.chain'_cons.1 h).2).1
    norm_num at this

/-- Claim C5 (amended): for a positive time step, positive gravity and
non-negative start height, every produced trajectory is non-empty with
non-decreasing sample times, strictly increasing on every adjacent pair
except possibly the final one (the appended exact landing sample may
repeat the previous time). -/
theorem claim_C5_amended (params : PhysicsState) (timeStep : ℝ)
    (obstacles : List Obstacle) (fuel : ℕ) (r : SimulationResult)
    (hdt : 0 < timeStep) (hg : 0 < params.gravity) (hy0 : 0 ≤ params.startHeight)
    (hr : calculateTrajectory params timeStep obstacles fuel = some r) :
    r.trajectory ≠ [] ∧
      List.Chain' (fun p q : Point => p.t ≤ q.t) r.trajectory ∧
      List.Chain' (fun p q : Point => p.t < q.t) r.trajectory.dropLast := by
  rw [calculateTrajectory] at hr
  by_cases h0 : params.initialVelocity = 0
  · rw [if_pos h0] at hr
    cases hr
    simp
  · rw [if_neg h0] at hr
    by_cases hsel : params.airResistance = false ∧ obstacles.length = 0
    · rw [if_pos hsel] at hr
      cases hr
      exact analytical_times params hg hy0
    · rw [if_neg hsel] at hr
      simp only [calculateNumericalTrajectory, initState_vy, initState_y] at hr
      by_cases hdeg : v0yOf params ≤ 0 ∧ params.startHeight = 0
      · rw [if_pos hdeg] at hr
        cases hr
        simp
      · rw [if_neg hdeg] at hr
        refine numLoop_times hdt fuel (initState params) r ?_ ?_ ?_ ?_ hr
        · rw [initState_y]; exact hy0
        · rw [initState_trajectory]; simp
        · rw [initState_trajectory]; exact List.chain'_singleton _
        · rw [initState_trajectory]
          intro pt hpt
          simp only [List.getLast?_singleton, Option.mem_def, Option.some_inj] at hpt
          subst hpt
          rfl

/-- Witness for the amended C5 on a raised 45° no-drag launch. -/
theorem claim_C5_amended_witness :
    ((0:ℝ) < 0.016) ∧ ((0:ℝ) < 1) ∧ ((0:ℝ) ≤ 2) ∧
    calculateTrajectory ⟨30, 0, 1, 1, true, 0, 2⟩ 0.016 [] 1 =
      some ⟨[⟨0, 2, 0⟩], ⟨0, 0, 2, ⟨0, 2, 0⟩, 0, 0, 0, 0, none⟩⟩ ∧
    ([⟨0, 2, 0⟩] : List Point) ≠ [] ∧
      List.Chain' (fun p q : Point => p.t ≤ q.t) [⟨0, 2, 0⟩] ∧
      List.Chain' (fun p q : Point => p.t < q.t) ([⟨0, 2, 0⟩] : List Point).dropLast := by
  have hr : calculateTrajectory ⟨30, 0, 1, 1, true, 0, 2⟩ 0.016 [] 1 =
      some ⟨[⟨0, 2, 0⟩], ⟨0, 0, 2, ⟨0, 2, 0⟩, 0, 0, 0, 0, none⟩⟩ := by
    rw [calculateTrajectory, if_pos rfl]
  refine ⟨by norm_num, by norm_num, by norm_num, hr, ?_⟩
  exact claim_C5_amended ⟨30, 0, 1, 1, true, 0, 2⟩ 0.016 [] 1 _
    (by norm_num) (by show (0:ℝ) < 1; norm_num) (by show (0:ℝ) ≤ 2; norm_num) hr

end GolfSim

namespace GolfSim

/-- Any result of the numerical loop ends in a sample that is either a
tree-collision point (inside some tree obstacle's span, at or below its
height) or an interpolated ground point with `y = 0`. -/
lemma numLoop_last_shape {params : PhysicsState} {dt : ℝ} {obstacles : List Obstacle} :
    ∀ (fuel : ℕ) (st : NumState) (r : SimulationResult),
      numLoop params dt obstacles fuel st = some r →
      ∃ pt : Point, r.trajectory.getLast? = some pt ∧
        ((r.finalStats.collision = some CollisionKind.tree ∧
            ∃ o ∈ obstacles, treeHit pt.x pt.y o) ∨
         (r.finalStats.collision ≠ some CollisionKind.tree ∧ pt.y = 0)) := by
  intro fuel
  induction fuel with
  | zero => intro st r h; simp [numLoop] at h
  | succ n ih =>
      intro st r hrun
      rw [numLoop] at hrun
      cases hstep : numStep params dt obstacles st with
      | inl st' =>
          rw [hstep] at hrun
          exact ih st' r hrun
      | inr res =>
          rw [hstep] at hrun
          cases hrun
          obtain ⟨pt, htr, -, -, hcase⟩ := numStep_inr_last hstep
          refine ⟨pt, by rw [htr, List.getLast?_concat], ?_⟩
          rcases hcase with ⟨hcol, hpt, o, hmem, hP⟩ | ⟨hcol, -, hpt⟩
          · subst hpt
            exact Or.inl ⟨hcol, o, hmem, hP⟩
          · subst hpt
            exact Or.inr ⟨hcol, rfl⟩

/-- The analytical result always ends on a `y = 0` sample and records no
collision. -/
lemma analytical_last (params : PhysicsState) :
    ∃ pt : Point,
      (calculateAnalyticalTrajectory params).trajectory.getLast? = some pt ∧
        pt.y = 0 ∧ (calculateAnalyticalTrajectory params).finalStats.collision = none := by
  by_cases hdeg : v0yOf params ≤ 0 ∧ params.startHeight = 0
  · simp only [calculateAnalyticalTrajectory]
    rw [if_pos hdeg]
    exact ⟨⟨0, 0, 0⟩, rfl, rfl, rfl⟩
  · simp only [calculateAnalyticalTrajectory]
    rw [if_neg hdeg]
    exact ⟨_, List.getLast?_concat _, rfl, rfl⟩

/-- Claim C6 (amended): with positive launch speed, every produced
trajectory ends on a `y = 0` ground sample unless a tree collision stopped
flight, in which case the final sample lies within the tree's horizontal
span at a height at most (not necessarily equal to) the tree's height. -/
theorem claim_C6_amended (params : PhysicsState) (timeStep : ℝ)
    (obstacles : List Obstacle) (fuel : ℕ) (r : SimulationResult)
    (hv : 0 < params.initialVelocity)
    (hr : calculateTrajectory params timeStep obstacles fuel = some r) :
    ∃ pt : Point, r.trajectory.getLast? = some pt ∧
      ((r.finalStats.collision = some CollisionKind.tree ∧
          ∃ o ∈ obstacles, treeHit pt.x pt.y o) ∨
       (r.finalStats.collision ≠ some CollisionKind.tree ∧ pt.y = 0)) := by
  rw [calculateTrajectory, if_neg (ne_of_gt hv)] at hr
  by_cases hsel : params.airResistance = false ∧ obstacles.length = 0
  · rw [if_pos hsel] at hr
    cases hr
    obtain ⟨pt, hlast, hy, hcol⟩ := analytical_last params
    exact ⟨pt, hlast, Or.inr ⟨by rw [hcol]; simp, hy⟩⟩
  · rw [if_neg hsel] at hr
    simp only [calculateNumericalTrajectory, initState_vy, initState_y] at hr
    by_cases hdeg : v0yOf params ≤ 0 ∧ params.startHeight = 0
    · rw [if_pos hdeg] at hr
      cases hr
      exact ⟨⟨0, 0, 0⟩, rfl, Or.inr ⟨by simp, rfl⟩⟩
    · rw [if_neg hdeg] at hr
      exact numLoop_last_shape fuel (initState params) r hr

end GolfSim

namespace GolfSim

/-- Claim C6 (counterexample): dropping a ball from height 10 into a tree
of height 100 (span `[0, 2]`) stops flight at the ball's current height
`y = 9`, not at the barrier height `100` as the claim asserts. -/
theorem claim_C6_counterexample :
    (calculateTrajectory ⟨0, 1, 1, 1, false, 0, 10⟩ 1
        [⟨ObstacleType.tree, 1, 2, 100⟩] 1).map
        (fun r => (r.finalStats.collision, (r.trajectory.getLast?).map Point.y)) =
      some (some CollisionKind.tree, some 9) ∧ (9:ℝ) ≠ 100 := by
  refine ⟨?_, by norm_num⟩
  have hvy : v0yOf ⟨0, 1, 1, 1, false, 0, 10⟩ = 0 := by
    simp [v0yOf, angleRadOf]
  have hvx : v0xOf ⟨0, 1, 1, 1, false, 0, 10⟩ = 1 := by
    simp [v0xOf, angleRadOf]
  have hadv : advance ⟨0, 1, 1, 1, false, 0, 10⟩ 1
      (initState ⟨0, 1, 1, 1, false, 0, 10⟩) =
      ⟨1, 9, 1, -1, 1, [⟨0, 10, 0⟩], 10, ⟨0, 10, 0⟩⟩ := by
    norm_num [advance, accel, initState, hvx, hvy, NumState.mk.injEq]
  have htree : treeHit (1:ℝ) 9 ⟨ObstacleType.tree, 1, 2, 100⟩ := by
    norm_num [treeHit]
  have hfh : findHit (treeHit (1:ℝ) 9) [⟨ObstacleType.tree, 1, 2, 100⟩] =
      some ⟨ObstacleType.tree, 1, 2, 100⟩ := by
    rw [findHit, if_pos htree]
  rw [calculateTrajectory, if_neg (by show (1:ℝ) ≠ 0; norm_num),
    if_neg (by rintro ⟨-, h⟩; simp at h)]
  simp only [calculateNumericalTrajectory, initState_vy, initState_y]
  rw [if_neg (by rintro ⟨-, h⟩; exact absurd (h : (10:ℝ) = 0) (by norm_num))]
  rw [numLoop]
  simp only [numStep, hadv]
  rw [hfh]
  simp

/-- Witness for the amended C6 on a degenerate flat ground-level launch
(no collision, final sample at `y = 0`). -/
theorem claim_C6_amended_witness :
    ((0:ℝ) < 1) ∧
    calculateTrajectory ⟨0, 1, 1, 1, false, 0, 0⟩ 0.016 [] 2 =
      some ⟨[⟨0, 0, 0⟩], ⟨0, 0, 0, ⟨0, 0, 0⟩, 0, 0, 1, 1, none⟩⟩ ∧
    (∃ pt : Point,
      (⟨[⟨0, 0, 0⟩], ⟨0, 0, 0, ⟨0, 0, 0⟩, 0, 0, 1, 1, none⟩⟩ :
          SimulationResult).trajectory.getLast? = some pt ∧
        (((⟨[⟨0, 0, 0⟩], ⟨0, 0, 0, ⟨0, 0, 0⟩, 0, 0, 1, 1, none⟩⟩ :
              SimulationResult).finalStats.collision = some CollisionKind.tree ∧
            ∃ o ∈ ([] : List Obstacle), treeHit pt.x pt.y o) ∨
         ((⟨[⟨0, 0, 0⟩], ⟨0, 0, 0, ⟨0, 0, 0⟩, 0, 0, 1, 1, none⟩⟩ :
              SimulationResult).finalStats.collision ≠ some CollisionKind.tree ∧
            pt.y = 0))) := by
  have hvy : v0yOf ⟨0, 1, 1, 1, false, 0, 0⟩ ≤ 0 := by
    simp [v0yOf, angleRadOf]
  have hr : calculateTrajectory ⟨0, 1, 1, 1, false, 0, 0⟩ 0.016 [] 2 =
      some ⟨[⟨0, 0, 0⟩], ⟨0, 0, 0, ⟨0, 0, 0⟩, 0, 0, 1, 1, none⟩⟩ := by
    rw [calculateTrajectory, if_neg (by show (1:ℝ) ≠ 0; norm_num),
      if_pos ⟨rfl, rfl⟩]
    simp only [calculateAnalyticalTrajectory]
    rw [if_pos ⟨hvy, by trivial⟩]
  exact ⟨by norm_num, hr,
    claim_C6_amended ⟨0, 1, 1, 1, false, 0, 0⟩ 0.016 [] 2 _
      (by show (0:ℝ) < 1; norm_num) hr⟩

end GolfSim

namespace GolfSim

/-- The no-drag flight parabola is non-negative between launch and the
positive root used as the analytical flight time. -/
lemma parabola_nonneg {g y0 v0y t : ℝ} (hg : 0 < g) (hy0 : 0 ≤ y0) (ht : 0 ≤ t)
    (hle : t ≤ (v0y + Real.sqrt (v0y ^ 2 + 2 * g * y0)) / g) :
    0 ≤ y0 + v0y * t - 0.5 * g * t ^ 2 := by
  have hs0 : 0 ≤ Real.sqrt (v0y ^ 2 + 2 * g * y0) := Real.sqrt_nonneg _
  have hs2 : (Real.sqrt (v0y ^ 2 + 2 * g * y0)) ^ 2 = v0y ^ 2 + 2 * g * y0 :=
    Real.sq_sqrt (by nlinarith)
  have hvys : v0y ≤ Real.sqrt (v0y ^ 2 + 2 * g * y0) := by
    have habs : |v0y| ≤ Real.sqrt (v0y ^ 2 + 2 * g * y0) := by
      rw [← Real.sqrt_sq_eq_abs]
      apply Real.sqrt_le_sqrt
      nlinarith
    linarith [le_abs_self v0y]
  have h1 : g * t ≤ v0y + Real.sqrt (v0y ^ 2 + 2 * g * y0) := by
    have := (le_div_iff₀ hg).1 hle
    linarith
  have hprod : 0 ≤ (v0y + Real.sqrt (v0y ^ 2 + 2 * g * y0) - g * t) *
      (Real.sqrt (v0y ^ 2 + 2 * g * y0) - v0y + g * t) := by
    apply mul_nonneg
    · linarith
    · have : 0 ≤ g * t := mul_nonneg hg.le ht
      linarith
  nlinarith [hprod, hs2]

/-- All analytical samples have non-negative height (positive gravity,
non-negative start height). -/
lemma analytical_heights (params : PhysicsState) (hg : 0 < params.gravity)
    (hy0 : 0 ≤ params.startHeight) :
    ∀ pt ∈ (calculateAnalyticalTrajectory params).trajectory, 0 ≤ pt.y := by
  by_cases hdeg : v0yOf params ≤ 0 ∧ params.startHeight = 0
  · simp only [calculateAnalyticalTrajectory]
    rw [if_pos hdeg]
    intro pt hpt
    simp only [List.mem_singleton] at hpt
    subst hpt
    exact le_refl 0
  · simp only [calculateAnalyticalTrajectory]
    rw [if_neg hdeg]
    have hft := analytical_flightTime_nonneg params hg hy0
    rw [if_pos hft]
    intro pt hpt
    rcases List.mem_append.1 hpt with hmem | hmem
    · rcases List.mem_map.1 hmem with ⟨i, hi, rfl⟩
      show 0 ≤ params.startHeight + v0yOf params * ((i : ℝ) * plotStep) -
        0.5 * params.gravity * ((i : ℝ) * plotStep) ^ 2
      apply parabola_nonneg hg hy0
        (mul_nonneg (Nat.cast_nonneg i) plotStep_pos.le)
      have hi' : (i : ℝ) ≤
          (Nat.floor ((v0yOf params +
            Real.sqrt ((v0yOf params) ^ 2 + 2 * params.gravity * params.startHeight)) /
              params.gravity / plotStep) : ℕ) := by
        exact_mod_cast Nat.lt_succ_iff.1 (List.mem_range.1 hi)
      calc (i : ℝ) * plotStep
          ≤ (Nat.floor ((v0yOf params +
              Real.sqrt ((v0yOf params) ^ 2 + 2 * params.gravity * params.startHeight)) /
                params.gravity / plotStep) : ℕ) * plotStep :=
            mul_le_mul_of_nonneg_right hi' plotStep_pos.le
        _ ≤ (v0yOf params +
              Real.sqrt ((v0yOf params) ^ 2 + 2 * params.gravity * params.startHeight)) /
                params.gravity := by
            rw [← le_div_iff₀ plotStep_pos]
            exact Nat.floor_le (div_nonneg hft plotStep_pos.le)
    · simp only [List.mem_singleton] at hmem
      subst hmem
      exact le_refl 0

/-- All samples pushed by the obstacle-free numerical loop have
non-negative height when the incoming state does. -/
lemma numLoop_heights {params : PhysicsState} {dt : ℝ} :
    ∀ (fuel : ℕ) (st : NumState) (r : SimulationResult),
      0 ≤ st.y → (∀ pt ∈ st.trajectory, 0 ≤ pt.y) →
      numLoop params dt [] fuel st = some r →
      ∀ pt ∈ r.trajectory, 0 ≤ pt.y := by
  intro fuel
  induction fuel with
  | zero => intro st r _ _ h; simp [numLoop] at h
  | succ n ih =>
      intro st r hy htraj hrun
      rw [numLoop] at hrun
      cases hstep : numStep params dt [] st with
      | inl st' =>
          rw [hstep] at hrun
          obtain ⟨hst', hyge, -⟩ := numStep_inl hstep
          refine ih st' r ?_ ?_ hrun
          · rw [hst']
            exact not_lt.1 hyge
          · rw [hst']
            intro pt hpt
            rcases List.mem_append.1 hpt with hmem | hmem
            · exact htraj pt hmem
            · simp only [List.mem_singleton] at hmem
              subst hmem
              exact not_lt.1 hyge
      | inr res =>
          rw [hstep] at hrun
          cases hrun
          obtain ⟨pt, htr, -, -, hcase⟩ := numStep_inr_last hstep
          rcases hcase with ⟨-, -, o, hmem, -⟩ | ⟨-, -, hpt⟩
          · exact absurd hmem (List.not_mem_nil o)
          · intro q hq
            rw [htr] at hq
            rcases List.mem_append.1 hq with hmem | hmem
            · exact htraj q hmem
            · simp only [List.mem_singleton] at hmem
              subst hmem
              rw [hpt]

/-- Claim C10: with no obstacles, angle in [0, 90], non-negative launch
speed, positive gravity and mass, and non-negative start height, every
sample of the returned trajectory has `y ≥ 0`. -/
theorem claim_C10_no_subground (params : PhysicsState) (timeStep : ℝ) (fuel : ℕ)
    (r : SimulationResult) (hang0 : 0 ≤ params.angle) (hang90 : params.angle ≤ 90)
    (hv : 0 ≤ params.initialVelocity) (hg : 0 < params.gravity)
    (hm : 0 < params.mass) (hy0 : 0 ≤ params.startHeight)
    (hr : calculateTrajectory params timeStep [] fuel = some r) :
    ∀ pt ∈ r.trajectory, 0 ≤ pt.y := by
  rw [calculateTrajectory] at hr
  by_cases h0 : params.initialVelocity = 0
  · rw [if_pos h0] at hr
    cases hr
    intro pt hpt
    simp only [List.mem_singleton] at hpt
    subst hpt
    exact hy0
  · rw [if_neg h0] at hr
    by_cases hsel : params.airResistance = false ∧ ([] : List Obstacle).length = 0
    · rw [if_pos hsel] at hr
      cases hr
      exact analytical_heights params hg hy0
    · rw [if_neg hsel] at hr
      simp only [calculateNumericalTrajectory, initState_vy, initState_y] at hr
      by_cases hdeg : v0yOf params ≤ 0 ∧ params.startHeight = 0
      · rw [if_pos hdeg] at hr
        cases hr
        intro pt hpt
        simp only [List.mem_singleton] at hpt
        subst hpt
        exact le_refl 0
      · rw [if_neg hdeg] at hr
        refine numLoop_heights fuel (initState params) r ?_ ?_ hr
        · rw [initState_y]; exact hy0
        · rw [initState_trajectory]
          intro pt hpt
          simp only [List.mem_singleton] at hpt
          subst hpt
          exact hy0

/-- Witness for C10 on a flat degenerate zero-speed launch from height 2. -/
theorem claim_C10_no_subground_witness :
    ((0:ℝ) ≤ 0) ∧ ((0:ℝ) ≤ 90) ∧ ((0:ℝ) ≤ 0) ∧ ((0:ℝ) < 1) ∧ ((0:ℝ) ≤ 2) ∧
    calculateTrajectory ⟨0, 0, 1, 1, false, 0, 2⟩ 0.016 [] 1 =
      some ⟨[⟨0, 2, 0⟩], ⟨0, 0, 2, ⟨0, 2, 0⟩, 0, 0, 0, 0, none⟩⟩ ∧
    0 ≤ (⟨0, 2, 0⟩ : Point).y := by
  have hr : calculateTrajectory ⟨0, 0, 1, 1, false, 0, 2⟩ 0.016 [] 1 =
      some ⟨[⟨0, 2, 0⟩], ⟨0, 0, 2, ⟨0, 2, 0⟩, 0, 0, 0, 0, none⟩⟩ := by
    rw [calculateTrajectory, if_pos rfl]
  refine ⟨le_refl 0, by norm_num, le_refl 0, by norm_num, by norm_num, hr, ?_⟩
  exact claim_C10_no_subground ⟨0, 0, 1, 1, false, 0, 2⟩ 0.016 1 _
    (le_refl 0) (by show (0:ℝ) ≤ 90; norm_num) (le_refl 0)
    (by show (0:ℝ) < 1; norm_num) (by show (0:ℝ) < 1; norm_num)
    (by show (0:ℝ) ≤ 2; norm_num) hr ⟨0, 2, 0⟩ (List.mem_singleton.2 rfl)

end GolfSim

namespace GolfSim

/-- The bracketing-pair search of `simulationLoop` succeeds whenever the
elapsed time lies between the first and last sample times of a strictly
time-sorted trajectory, and returns the interpolation in the first
bracketing pair. -/
lemma findInterp_bracket :
    ∀ (traj : List Point) (sim : ℝ) (plast : Point),
      List.Chain' (fun p q : Point => p.t < q.t) traj →
      traj.getLast? = some plast →
      sim < plast.t →
      ∀ phead ∈ traj.head?, phead.t ≤ sim →
      ∃ l1 p1 p2 l2, traj = l1 ++ p1 :: p2 :: l2 ∧ p1.t ≤ sim ∧ sim < p2.t ∧
        findInterp sim traj = some (interpPoint p1 p2 sim) := by
  intro traj
  induction traj with
  | nil =>
      intro sim plast _ hlast
      cases hlast
  | cons p rest ih =>
      intro sim plast hchain hlast hsim phead hhead hple
      simp only [List.head?_cons, Option.mem_def, Option.some_inj] at hhead
      subst hhead
      rcases rest with _ | ⟨q, rest'⟩
      · simp only [List.getLast?_singleton, Option.some_inj] at hlast
        subst hlast
        exact absurd hsim (not_lt.2 hple)
      · by_cases hbr : p.t ≤ sim ∧ sim < q.t
        · refine ⟨[], p, q, rest', rfl, hbr.1, hbr.2, ?_⟩
          simp only [findInterp]
          rw [if_pos hbr]
        · have hqle : q.t ≤ sim := by
            rcases not_and_or.1 hbr with h | h
            · exact absurd hple h
            · exact not_lt.1 h
          have hchain' : List.Chain' (fun a b : Point => a.t < b.t) (q :: rest') :=
            (List.chain'_cons.1 hchain).2
          have hlast' : (q :: rest').getLast? = some plast := by
            rw [← hlast]
            exact List.getLast?_cons_cons.symm
          obtain ⟨l1, p1, p2, l2, heq, h1, h2, h3⟩ :=
            ih sim plast hchain' hlast' hsim q rfl hqle
          refine ⟨p :: l1, p1, p2, l2, by rw [heq]; rfl, h1, h2, ?_⟩
          rw [← h3]
          simp only [findInterp]
          rw [if_neg hbr, heq]

/-- Claim C8: one flying-state tick adds the factor-scaled wall delta to
the elapsed simulated time (factor 0.25 in slow motion, 1 otherwise); if
the new elapsed time reaches the flight time the position is the final
sample and the run finishes, otherwise the position is the linear
interpolation in the bracketing sample pair `p1.t ≤ elapsed < p2.t`. -/
theorem claim_C8_tick (trajPoints : List Point)
    (totalFlightTime simTime timeDelta : ℝ) (slowMotion : Bool)
    (phead plast : Point)
    (hhead : trajPoints.head? = some phead)
    (hlast : trajPoints.getLast? = some plast)
    (hchain : List.Chain' (fun p q : Point => p.t < q.t) trajPoints)
    (hstart : phead.t ≤ simTime + timeDelta * (if slowMotion then 0.25 else 1))
    (hfinal : plast.t = totalFlightTime) :
    (simulationTick trajPoints totalFlightTime simTime timeDelta slowMotion).elapsedSimTime
        = simTime + timeDelta * (if slowMotion then 0.25 else 1) ∧
    (totalFlightTime ≤ simTime + timeDelta * (if slowMotion then 0.25 else 1) →
      (simulationTick trajPoints totalFlightTime simTime timeDelta slowMotion).finished
          = true ∧
      (simulationTick trajPoints totalFlightTime simTime timeDelta slowMotion).position
          = some (plast.x, plast.y)) ∧
    (simTime + timeDelta * (if slowMotion then 0.25 else 1) < totalFlightTime →
      (simulationTick trajPoints totalFlightTime simTime timeDelta slowMotion).finished
          = false ∧
      ∃ l1 p1 p2 l2, trajPoints = l1 ++ p1 :: p2 :: l2 ∧
        p1.t ≤ simTime + timeDelta * (if slowMotion then 0.25 else 1) ∧
        simTime + timeDelta * (if slowMotion then 0.25 else 1) < p2.t ∧
        (simulationTick trajPoints totalFlightTime simTime timeDelta slowMotion).position
          = some (interpPoint p1 p2
              (simTime + timeDelta * (if slowMotion then 0.25 else 1)))) := by
  refine ⟨?_, ?_, ?_⟩
  · simp only [simulationTick]
    split <;> split <;> rfl
  · intro hge
    simp only [simulationTick]
    rw [if_pos hge]
    exact ⟨rfl, by rw [hlast]; rfl⟩
  · intro hlt
    simp only [simulationTick]
    rw [if_neg (not_le.2 hlt)]
    refine ⟨rfl, ?_⟩
    obtain ⟨l1, p1, p2, l2, heq, h1, h2, h3⟩ :=
      findInterp_bracket trajPoints
        (simTime + timeDelta * (if slowMotion then 0.25 else 1)) plast hchain hlast
        (by rw [hfinal]; exact hlt) phead hhead hstart
    exact ⟨l1, p1, p2, l2, heq, h1, h2, h3⟩

/-- Witness for C8: one normal-speed tick of 0.5 s over a three-sample
trajectory, interpolating in the first sample pair. -/
theorem claim_C8_tick_witness :
    (([⟨0, 0, 0⟩, ⟨1, 1, 1⟩, ⟨2, 0, 2⟩] : List Point).head? = some ⟨0, 0, 0⟩) ∧
    (([⟨0, 0, 0⟩, ⟨1, 1, 1⟩, ⟨2, 0, 2⟩] : List Point).getLast? = some ⟨2, 0, 2⟩) ∧
    List.Chain' (fun p q : Point => p.t < q.t) [⟨0, 0, 0⟩, ⟨1, 1, 1⟩, ⟨2, 0, 2⟩] ∧
    ((⟨0, 0, 0⟩ : Point).t ≤ 0 + 0.5 * (if false then 0.25 else 1)) ∧
    ((⟨2, 0, 2⟩ : Point).t = 2) ∧
    ((simulationTick [⟨0, 0, 0⟩, ⟨1, 1, 1⟩, ⟨2, 0, 2⟩] 2 0 0.5 false).elapsedSimTime
        = 0 + 0.5 * (if false then 0.25 else 1) ∧
      ((2:ℝ) ≤ 0 + 0.5 * (if false then 0.25 else 1) →
        (simulationTick [⟨0, 0, 0⟩, ⟨1, 1, 1⟩, ⟨2, 0, 2⟩] 2 0 0.5 false).finished
            = true ∧
        (simulationTick [⟨0, 0, 0⟩, ⟨1, 1, 1⟩, ⟨2, 0, 2⟩] 2 0 0.5 false).position
            = some ((⟨2, 0, 2⟩ : Point).x, (⟨2, 0, 2⟩ : Point).y)) ∧
      ((0:ℝ) + 0.5 * (if false then 0.25 else 1) < 2 →
        (simulationTick [⟨0, 0, 0⟩, ⟨1, 1, 1⟩, ⟨2, 0, 2⟩] 2 0 0.5 false).finished
            = false ∧
        ∃ l1 p1 p2 l2,
          ([⟨0, 0, 0⟩, ⟨1, 1, 1⟩, ⟨2, 0, 2⟩] : List Point) = l1 ++ p1 :: p2 :: l2 ∧
          p1.t ≤ 0 + 0.5 * (if false then 0.25 else 1) ∧
          (0:ℝ) + 0.5 * (if false then 0.25 else 1) < p2.t ∧
          (simulationTick [⟨0, 0, 0⟩, ⟨1, 1, 1⟩, ⟨2, 0, 2⟩] 2 0 0.5 false).position
            = some (interpPoint p1 p2 (0 + 0.5 * (if false then 0.25 else 1))))) := by
  have hchain : List.Chain' (fun p q : Point => p.t < q.t)
      [⟨0, 0, 0⟩, ⟨1, 1, 1⟩, ⟨2, 0, 2⟩] := by
    refine List.chain'_cons.2 ⟨by norm_num, List.chain'_cons.2 ⟨by norm_num, ?_⟩⟩
    exact List.chain'_singleton _
  have hstart : (⟨0, 0, 0⟩ : Point).t ≤ 0 + 0.5 * (if false then (0.25:ℝ) else 1) := by
    norm_num
  exact ⟨rfl, rfl, hchain, hstart, rfl,
    claim_C8_tick [⟨0, 0, 0⟩, ⟨1, 1, 1⟩, ⟨2, 0, 2⟩] 2 0 0.5 false
      ⟨0, 0, 0⟩ ⟨2, 0, 2⟩ rfl rfl hchain hstart rfl⟩

end GolfSim

namespace GolfSim

/-- Obstacle lists containing only sand never satisfy the tree test. -/
lemma findHit_tree_of_all_sand {obstacles : List Obstacle}
    (hobs : ∀ o ∈ obstacles, o.type = ObstacleType.sand) (x y : ℝ) :
    findHit (treeHit x y) obstacles = none := by
  apply findHit_eq_none_of_forall
  intro o ho hP
  have h1 := hP.1
  rw [hobs o ho] at h1
  cases h1

/-- With only sand obstacles, one numerical step behaves exactly like the
obstacle-free step, except that a landing whose interpolated `x` lies in a
sand span reports `impactSpeed = 0` and a sand collision. -/
lemma numStep_all_sand {params : PhysicsState} {dt : ℝ} {obstacles : List Obstacle}
    (hobs : ∀ o ∈ obstacles, o.type = ObstacleType.sand) (st : NumState) :
    (∃ st', numStep params dt obstacles st = Sum.inl st' ∧
        numStep params dt [] st = Sum.inl st') ∨
    (∃ r r₀, numStep params dt obstacles st = Sum.inr r ∧
        numStep params dt [] st = Sum.inr r₀ ∧
        r.trajectory = r₀.trajectory ∧
        r.finalStats.flightTime = r₀.finalStats.flightTime ∧
        r.finalStats.horizontalDistance = r₀.finalStats.horizontalDistance ∧
        ((∃ o ∈ obstacles, sandHit r₀.finalStats.horizontalDistance o) →
          r.finalStats.impactSpeed = 0 ∧
          r.finalStats.collision = some CollisionKind.sand)) := by
  have htobs := findHit_tree_of_all_sand hobs
    (advance params dt st).x (advance params dt st).y
  by_cases hy : (advance params dt st).y < 0
  · by_cases hsand : ∃ o ∈ obstacles,
        sandHit (st.x + ((advance params dt st).x - st.x) *
          groundFactor st (advance params dt st)) o
    · obtain ⟨o', hfh', hP', hmem'⟩ := findHit_isSome_of_exists hsand
      right
      refine
        ⟨{ trajectory := st.trajectory ++ [⟨st.x + ((advance params dt st).x - st.x) * groundFactor st (advance params dt st), 0, st.t + dt * groundFactor st (advance params dt st)⟩],
            finalStats :=
              { flightTime := st.t + dt * groundFactor st (advance params dt st),
                horizontalDistance := st.x + ((advance params dt st).x - st.x) * groundFactor st (advance params dt st),
                maxHeight := (advance params dt st).maxHeight,
                maxHeightPoint := (advance params dt st).maxHeightPoint,
                timeToMaxHeight := (advance params dt st).maxHeightPoint.t,
                horizontalDistanceToMaxHeight := (advance params dt st).maxHeightPoint.x,
                launchSpeed := params.initialVelocity, impactSpeed := 0,
                collision := some CollisionKind.sand } },
         { trajectory := st.trajectory ++ [⟨st.x + ((advance params dt st).x - st.x) * groundFactor st (advance params dt st), 0, st.t + dt * groundFactor st (advance params dt st)⟩],
            finalStats :=
              { flightTime := st.t + dt * groundFactor st (advance params dt st),
                horizontalDistance := st.x + ((advance params dt st).x - st.x) * groundFactor st (advance params dt st),
                maxHeight := (advance params dt st).maxHeight,
                maxHeightPoint := (advance params dt st).maxHeightPoint,
                timeToMaxHeight := (advance params dt st).maxHeightPoint.t,
                horizontalDistanceToMaxHeight := (advance params dt st).maxHeightPoint.x,
                launchSpeed := params.initialVelocity,
                impactSpeed := Real.sqrt (((advance params dt st).vx - (accel params st).1 * (dt * (1 - groundFactor st (advance params dt st)))) ^ 2 + ((advance params dt st).vy - (accel params st).2 * (dt * (1 - groundFactor st (advance params dt st)))) ^ 2),
                collision := none } }, ?_, ?_, ?_, ?_, ?_, ?_⟩
      · simp only [numStep]
        rw [htobs]
        simp only
        rw [if_pos hy, hfh']
      · simp only [numStep, findHit]
        rw [if_pos hy]
      · rfl
      · rfl
      · rfl
      · exact fun _ => ⟨rfl, rfl⟩
    · have hfhn : findHit
          (sandHit (st.x + ((advance params dt st).x - st.x) *
            groundFactor st (advance params dt st))) obstacles = none := by
        apply findHit_eq_none_of_forall
        intro o ho hP
        exact hsand ⟨o, ho, hP⟩
      right
      refine
        ⟨{ trajectory := st.trajectory ++ [⟨st.x + ((advance params dt st).x - st.x) * groundFactor st (advance params dt st), 0, st.t + dt * groundFactor st (advance params dt st)⟩],
            finalStats :=
              { flightTime := st.t + dt * groundFactor st (advance params dt st),
                horizontalDistance := st.x + ((advance params dt st).x - st.x) * groundFactor st (advance params dt st),
                maxHeight := (advance params dt st).maxHeight,
                maxHeightPoint := (advance params dt st).maxHeightPoint,
                timeToMaxHeight := (advance params dt st).maxHeightPoint.t,
                horizontalDistanceToMaxHeight := (advance params dt st).maxHeightPoint.x,
                launchSpeed := params.initialVelocity,
                impactSpeed := Real.sqrt (((advance params dt st).vx - (accel params st).1 * (dt * (1 - groundFactor st (advance params dt st)))) ^ 2 + ((advance params dt st).vy - (accel params st).2 * (dt * (1 - groundFactor st (advance params dt st)))) ^ 2),
                collision := none } },
         { trajectory := st.trajectory ++ [⟨st.x + ((advance params dt st).x - st.x) * groundFactor st (advance params dt st), 0, st.t + dt * groundFactor st (advance params dt st)⟩],
            finalStats :=
              { flightTime := st.t + dt * groundFactor st (advance params dt st),
                horizontalDistance := st.x + ((advance params dt st).x - st.x) * groundFactor st (advance params dt st),
                maxHeight := (advance params dt st).maxHeight,
                maxHeightPoint := (advance params dt st).maxHeightPoint,
                timeToMaxHeight := (advance params dt st).maxHeightPoint.t,
                horizontalDistanceToMaxHeight := (advance params dt st).maxHeightPoint.x,
                launchSpeed := params.initialVelocity,
                impactSpeed := Real.sqrt (((advance params dt st).vx - (accel params st).1 * (dt * (1 - groundFactor st (advance params dt st)))) ^ 2 + ((advance params dt st).vy - (accel params st).2 * (dt * (1 - groundFactor st (advance params dt st)))) ^ 2),
                collision := none } }, ?_, ?_, ?_, ?_, ?_, ?_⟩
      · simp only [numStep]
        rw [htobs]
        simp only
        rw [if_pos hy, hfhn]
      · simp only [numStep, findHit]
        rw [if_pos hy]
      · rfl
      · rfl
      · rfl
      · exact fun h => absurd h hsand
  · left
    refine
      ⟨{ x := (advance params dt st).x, y := (advance params dt st).y,
            vx := (advance params dt st).vx, vy := (advance params dt st).vy,
            t := (advance params dt st).t,
            trajectory := st.trajectory ++
              [⟨(advance params dt st).x, (advance params dt st).y,
                (advance params dt st).t⟩],
            maxHeight := (advance params dt st).maxHeight,
            maxHeightPoint := (advance params dt st).maxHeightPoint }, ?_, ?_⟩
    · simp only [numStep]
      rw [htobs]
      simp only
      rw [if_neg hy]
    · simp only [numStep, findHit]
      rw [if_neg hy]

end GolfSim

namespace GolfSim

/-- With only sand obstacles, a run that lands in the obstacle-free world
also terminates in the sand world, at the same landing sample, time and
distance; when the landing `x` lies in a sand span the sand run reports
`impactSpeed = 0` and a sand collision. -/
lemma numLoop_sand {params : PhysicsState} {dt : ℝ} {obstacles : List Obstacle}
    (hobs : ∀ o ∈ obstacles, o.type = ObstacleType.sand) :
    ∀ (fuel : ℕ) (st : NumState) (r₀ : SimulationResult),
      numLoop params dt [] fuel st = some r₀ →
      ∃ r, numLoop params dt obstacles fuel st = some r ∧
        r.trajectory = r₀.trajectory ∧
        r.finalStats.flightTime = r₀.finalStats.flightTime ∧
        r.finalStats.horizontalDistance = r₀.finalStats.horizontalDistance ∧
        ((∃ o ∈ obstacles, sandHit r₀.finalStats.horizontalDistance o) →
          r.finalStats.impactSpeed = 0 ∧
          r.finalStats.collision = some CollisionKind.sand) := by
  intro fuel
  induction fuel with
  | zero => intro st r₀ h; simp [numLoop] at h
  | succ n ih =>
      intro st r₀ h₀
      rw [numLoop] at h₀
      rw [numLoop]
      rcases numStep_all_sand hobs st with
        ⟨st', hso, hsn⟩ | ⟨r, r', hso, hsn, htraj, hft, hhd, himp⟩
      · rw [hsn] at h₀
        rw [hso]
        exact ih st' r₀ h₀
      · rw [hsn] at h₀
        cases h₀
        rw [hso]
        exact ⟨r, rfl, htraj, hft, hhd, himp⟩

/-- Claim C9: in a numerical solve over sand-only obstacles, whenever the
obstacle-free run lands at an interpolated ground-impact `x` inside a sand
obstacle's span, the sand run returns `impactSpeed = 0` with a sand
collision, and its trajectory — in particular the landing sample, landing
time and landing distance — is the same as the unobstructed run's. -/
theorem claim_C9_sand_landing (params : PhysicsState) (dt : ℝ)
    (obstacles : List Obstacle) (fuel : ℕ) (r₀ : SimulationResult)
    (hobs : ∀ o ∈ obstacles, o.type = ObstacleType.sand)
    (hdeg : ¬ (v0yOf params ≤ 0 ∧ params.startHeight = 0))
    (h₀ : calculateNumericalTrajectory params dt [] fuel = some r₀)
    (hsand : ∃ o ∈ obstacles, sandHit r₀.finalStats.horizontalDistance o) :
    ∃ r, calculateNumericalTrajectory params dt obstacles fuel = some r ∧
      r.finalStats.impactSpeed = 0 ∧
      r.finalStats.collision = some CollisionKind.sand ∧
      r.trajectory = r₀.trajectory ∧
      r.finalStats.flightTime = r₀.finalStats.flightTime ∧
      r.finalStats.horizontalDistance = r₀.finalStats.horizontalDistance := by
  simp only [calculateNumericalTrajectory, initState_vy, initState_y] at h₀ ⊢
  rw [if_neg hdeg] at h₀ ⊢
  obtain ⟨r, hr, htraj, hft, hhd, himp⟩ := numLoop_sand hobs fuel (initState params) r₀ h₀
  exact ⟨r, hr, (himp hsand).1, (himp hsand).2, htraj, hft, hhd⟩

end GolfSim

namespace GolfSim

/-- Witness for C9: a flat throw from height 3 at 4 m/s under gravity 3
(step 1 s) lands at `x = 4, t = 1`; a sand trap spanning `[3.5, 4.5]`
zeroes the impact speed there without moving the landing point. -/
theorem claim_C9_sand_landing_witness :
    (∀ o ∈ [(⟨ObstacleType.sand, 3.5, 1, 0⟩ : Obstacle)],
        o.type = ObstacleType.sand) ∧
    (¬ (v0yOf ⟨0, 4, 3, 1, false, 0, 3⟩ ≤ 0 ∧
        (⟨0, 4, 3, 1, false, 0, 3⟩ : PhysicsState).startHeight = 0)) ∧
    calculateNumericalTrajectory ⟨0, 4, 3, 1, false, 0, 3⟩ 1 [] 2 =
      some ⟨[⟨0, 3, 0⟩, ⟨4, 0, 1⟩, ⟨4, 0, 1⟩],
        ⟨1, 4, 3, ⟨0, 3, 0⟩, 0, 0, 4, 5, none⟩⟩ ∧
    (∃ o ∈ [(⟨ObstacleType.sand, 3.5, 1, 0⟩ : Obstacle)],
        sandHit ((⟨[⟨0, 3, 0⟩, ⟨4, 0, 1⟩, ⟨4, 0, 1⟩],
          ⟨1, 4, 3, ⟨0, 3, 0⟩, 0, 0, 4, 5, none⟩⟩ :
            SimulationResult).finalStats.horizontalDistance) o) ∧
    (∃ r, calculateNumericalTrajectory ⟨0, 4, 3, 1, false, 0, 3⟩ 1
          [⟨ObstacleType.sand, 3.5, 1, 0⟩] 2 = some r ∧
        r.finalStats.impactSpeed = 0 ∧
        r.finalStats.collision = some CollisionKind.sand ∧
        r.trajectory = (⟨[⟨0, 3, 0⟩, ⟨4, 0, 1⟩, ⟨4, 0, 1⟩],
          ⟨1, 4, 3, ⟨0, 3, 0⟩, 0, 0, 4, 5, none⟩⟩ :
            SimulationResult).trajectory ∧
        r.finalStats.flightTime = (⟨[⟨0, 3, 0⟩, ⟨4, 0, 1⟩, ⟨4, 0, 1⟩],
          ⟨1, 4, 3, ⟨0, 3, 0⟩, 0, 0, 4, 5, none⟩⟩ :
            SimulationResult).finalStats.flightTime ∧
        r.finalStats.horizontalDistance = (⟨[⟨0, 3, 0⟩, ⟨4, 0, 1⟩, ⟨4, 0, 1⟩],
          ⟨1, 4, 3, ⟨0, 3, 0⟩, 0, 0, 4, 5, none⟩⟩ :
            SimulationResult).finalStats.horizontalDistance) := by
  have hobs : ∀ o ∈ [(⟨ObstacleType.sand, 3.5, 1, 0⟩ : Obstacle)],
      o.type = ObstacleType.sand := by
    intro o ho
    rw [List.mem_singleton] at ho
    subst ho
    rfl
  have hdeg : ¬ (v0yOf ⟨0, 4, 3, 1, false, 0, 3⟩ ≤ 0 ∧
      (⟨0, 4, 3, 1, false, 0, 3⟩ : PhysicsState).startHeight = 0) := by
    rintro ⟨-, h⟩
    exact absurd (h : (3:ℝ) = 0) (by norm_num)
  have hvx : v0xOf ⟨0, 4, 3, 1, false, 0, 3⟩ = 4 := by
    simp [v0xOf, angleRadOf]
  have hvy : v0yOf ⟨0, 4, 3, 1, false, 0, 3⟩ = 0 := by
    simp [v0yOf, angleRadOf]
  have hinit : initState ⟨0, 4, 3, 1, false, 0, 3⟩ =
      ⟨0, 3, 4, 0, 0, [⟨0, 3, 0⟩], 3, ⟨0, 3, 0⟩⟩ := by
    norm_num [initState, hvx, hvy, NumState.mk.injEq]
  have hadv1 : advance ⟨0, 4, 3, 1, false, 0, 3⟩ 1
      ⟨0, 3, 4, 0, 0, [⟨0, 3, 0⟩], 3, ⟨0, 3, 0⟩⟩ =
      ⟨4, 0, 4, -3, 1, [⟨0, 3, 0⟩], 3, ⟨0, 3, 0⟩⟩ := by
    norm_num [advance, accel, NumState.mk.injEq, Point.mk.injEq]
  have hstep1 : numStep ⟨0, 4, 3, 1, false, 0, 3⟩ 1 []
      ⟨0, 3, 4, 0, 0, [⟨0, 3, 0⟩], 3, ⟨0, 3, 0⟩⟩ =
      Sum.inl ⟨4, 0, 4, -3, 1, [⟨0, 3, 0⟩, ⟨4, 0, 1⟩], 3, ⟨0, 3, 0⟩⟩ := by
    simp only [numStep, hadv1, findHit]
    rw [if_neg (by norm_num : ¬(0:ℝ) < 0)]
    rfl
  have hadv2 : advance ⟨0, 4, 3, 1, false, 0, 3⟩ 1
      ⟨4, 0, 4, -3, 1, [⟨0, 3, 0⟩, ⟨4, 0, 1⟩], 3, ⟨0, 3, 0⟩⟩ =
      ⟨8, -6, 4, -6, 2, [⟨0, 3, 0⟩, ⟨4, 0, 1⟩], 3, ⟨0, 3, 0⟩⟩ := by
    norm_num [advance, accel, NumState.mk.injEq, Point.mk.injEq]
  have h5 : Real.sqrt 25 = 5 := by
    rw [show (25:ℝ) = 5 ^ 2 by norm_num]
    exact Real.sqrt_sq (by norm_num)
  have hstep2 : numStep ⟨0, 4, 3, 1, false, 0, 3⟩ 1 []
      ⟨4, 0, 4, -3, 1, [⟨0, 3, 0⟩, ⟨4, 0, 1⟩], 3, ⟨0, 3, 0⟩⟩ =
      Sum.inr ⟨[⟨0, 3, 0⟩, ⟨4, 0, 1⟩, ⟨4, 0, 1⟩],
        ⟨1, 4, 3, ⟨0, 3, 0⟩, 0, 0, 4, 5, none⟩⟩ := by
    simp only [numStep, hadv2, findHit]
    rw [if_pos (by norm_num : (-6:ℝ) < 0)]
    norm_num [groundFactor, accel, SimulationResult.mk.injEq,
      SimulationStats.mk.injEq, Point.mk.injEq, h5]
  have h₀ : calculateNumericalTrajectory ⟨0, 4, 3, 1, false, 0, 3⟩ 1 [] 2 =
      some ⟨[⟨0, 3, 0⟩, ⟨4, 0, 1⟩, ⟨4, 0, 1⟩],
        ⟨1, 4, 3, ⟨0, 3, 0⟩, 0, 0, 4, 5, none⟩⟩ := by
    simp only [calculateNumericalTrajectory, initState_vy, initState_y]
    rw [if_neg hdeg, hinit, numLoop, hstep1]
    simp only
    rw [numLoop, hstep2]
  have hsand : ∃ o ∈ [(⟨ObstacleType.sand, 3.5, 1, 0⟩ : Obstacle)],
      sandHit ((⟨[⟨0, 3, 0⟩, ⟨4, 0, 1⟩, ⟨4, 0, 1⟩],
        ⟨1, 4, 3, ⟨0, 3, 0⟩, 0, 0, 4, 5, none⟩⟩ :
          SimulationResult).finalStats.horizontalDistance) o := by
    refine ⟨⟨ObstacleType.sand, 3.5, 1, 0⟩, List.mem_singleton.2 rfl, rfl, ?_, ?_⟩
    · norm_num
    · norm_num
  exact ⟨hobs, hdeg, h₀, hsand,
    claim_C9_sand_landing ⟨0, 4, 3, 1, false, 0, 3⟩ 1
      [⟨ObstacleType.sand, 3.5, 1, 0⟩] 2 _ hobs hdeg h₀ hsand⟩

end GolfSim

namespace GolfSim

lemma initState_vx (params : PhysicsState) : (initState params).vx = v0xOf params := rfl

/-- The drag constant of the C2 failing input is at most `-8`. -/
lemma c2_dragConstant_le :
    dragConstantOf ⟨90, 1, 1, 1, true, -10000, 0⟩ ≤ -8 := by
  simp only [dragConstantOf, AIR_DENSITY, GOLF_BALL_DIAMETER]
  nlinarith [Real.pi_gt_three]

/-- With the C2 failing input (straight-up launch, drag coefficient
`-10000`), any loop state with `vx = 0`, `vy ≥ 1` and `y ≥ 0` keeps those
bounds forever: the integration loop never exits for any amount of fuel. -/
lemma c2_loop_none :
    ∀ (fuel : ℕ) (st : NumState),
      st.vx = 0 → 1 ≤ st.vy → 0 ≤ st.y →
      numLoop ⟨90, 1, 1, 1, true, -10000, 0⟩ 0.016 [] fuel st = none := by
  intro fuel
  induction fuel with
  | zero => intro st _ _ _; rfl
  | succ n ih =>
      intro st hvx hvy hy
      have hv : Real.sqrt (st.vx ^ 2 + st.vy ^ 2) = st.vy := by
        rw [hvx, show (0:ℝ) ^ 2 + st.vy ^ 2 = st.vy ^ 2 by ring]
        exact Real.sqrt_sq (by linarith)
      have haccel : accel ⟨90, 1, 1, 1, true, -10000, 0⟩ st =
          (0, -1 + -dragConstantOf ⟨90, 1, 1, 1, true, -10000, 0⟩ *
            (st.vy * st.vy)) := by
        simp only [accel]
        rw [if_pos trivial, hv]
        rw [Prod.mk.injEq]
        constructor
        · rw [hvx]
          norm_num
        · show (-(1:ℝ) + -dragConstantOf _ * st.vy * st.vy / 1) = _
          ring
      have hayge : (0:ℝ) ≤ -1 + -dragConstantOf ⟨90, 1, 1, 1, true, -10000, 0⟩ *
          (st.vy * st.vy) := by
        have h1 : (8:ℝ) ≤ -dragConstantOf ⟨90, 1, 1, 1, true, -10000, 0⟩ := by
          have := c2_dragConstant_le
          linarith
        have h2 : (1:ℝ) ≤ st.vy * st.vy := by nlinarith [hvy]
        nlinarith [mul_le_mul h1 h2 (by norm_num) (by linarith)]
      have hvy' : 1 ≤ (advance ⟨90, 1, 1, 1, true, -10000, 0⟩ 0.016 st).vy := by
        rw [advance_vy, haccel]
        show (1:ℝ) ≤ st.vy + (-1 + -dragConstantOf _ * (st.vy * st.vy)) * 0.016
        nlinarith [hayge]
      have hvx' : (advance ⟨90, 1, 1, 1, true, -10000, 0⟩ 0.016 st).vx = 0 := by
        rw [advance_vx, haccel, hvx]
        show (0:ℝ) + 0 * 0.016 = 0
        ring
      have hy' : 0 ≤ (advance ⟨90, 1, 1, 1, true, -10000, 0⟩ 0.016 st).y := by
        rw [advance_y, haccel]
        show (0:ℝ) ≤ st.y + (st.vy + (-1 + -dragConstantOf _ * (st.vy * st.vy)) * 0.016) * 0.016
        nlinarith [hayge, hvy, hy]
      rw [numLoop]
      cases hstep : numStep ⟨90, 1, 1, 1, true, -10000, 0⟩ 0.016 [] st with
      | inr res =>
          exfalso
          obtain ⟨pt, -, -, -, hcase⟩ := numStep_inr_last hstep
          rcases hcase with ⟨-, -, o, hmem, -⟩ | ⟨-, hylt, -⟩
          · exact absurd hmem (List.not_mem_nil o)
          · exact absurd hylt (not_lt.2 hy')
      | inl st' =>
          obtain ⟨hst', -, -⟩ := numStep_inl hstep
          show numLoop ⟨90, 1, 1, 1, true, -10000, 0⟩ 0.016 [] n st' = none
          apply ih
          · rw [hst']
            exact hvx'
          · rw [hst']
            exact hvy'
          · rw [hst']
            exact hy'

/-- Claim C2 (code bug): the numerical loop of the source has no
maximum-step or maximum-flight-time cap at all, and there are inputs on
which it never reaches the ground: with drag enabled, a drag coefficient
of `-10000` and a straight-up launch, the loop runs forever (it returns
within no finite number of iterations), so `calculateTrajectory` is not
total. -/
theorem claim_C2_no_termination_cap (fuel : ℕ) :
    calculateTrajectory ⟨90, 1, 1, 1, true, -10000, 0⟩ 0.016 [] fuel = none := by
  have hrad : angleRadOf ⟨90, 1, 1, 1, true, -10000, 0⟩ = Real.pi / 2 := by
    show (90:ℝ) * Real.pi / 180 = Real.pi / 2
    ring
  have hvy1 : v0yOf ⟨90, 1, 1, 1, true, -10000, 0⟩ = 1 := by
    rw [v0yOf, hrad, Real.sin_pi_div_two]
    norm_num
  have hvx0 : v0xOf ⟨90, 1, 1, 1, true, -10000, 0⟩ = 0 := by
    rw [v0xOf, hrad, Real.cos_pi_div_two]
    norm_num
  rw [calculateTrajectory, if_neg (by show (1:ℝ) ≠ 0; norm_num),
    if_neg (by rintro ⟨h, -⟩; cases h)]
  simp only [calculateNumericalTrajectory, initState_vy, initState_y]
  rw [if_neg (by rintro ⟨h, -⟩; rw [hvy1] at h; exact absurd h (by norm_num))]
  apply c2_loop_none fuel (initState ⟨90, 1, 1, 1, true, -10000, 0⟩)
  · rw [initState_vx, hvx0]
  · rw [initState_vy, hvy1]
  · rw [initState_y]

end GolfSim
